import Mathlib

/-!
Verification development for the chat server's event-dispatch gateway
(`src/gateway/handler.rs`, `src/models/snowflake.rs`,
`src/models/gateway_event.rs`, `rest/routes/guilds.rs`).

The Rust code is shallowly embedded: machine integers are `Int`/`Nat`
with explicit bounds where they matter, `HashSet`s are duplicate-free
lists under their membership semantics, `DashMap` is an association
list, mpsc queues are the list of responses enqueued so far, and
fallible operations return `Option`/`Except`.
-/

namespace Chat

/-! ## Snowflake IDs (`models/snowflake.rs`)

`Snowflake` wraps an `i64` (`value: i64`); equality (`PartialEq`) and
hashing (`Hash`) delegate to the raw integer. `Serialize` renders
`self.value.to_string()` as a JSON string; `Deserialize` reads a JSON
string and runs `i64::from_str` on it. -/

/-- The `i64` lower bound, `-(2^63)`. -/
def i64Min : Int := -(2 ^ 63)

/-- The `i64` upper bound, `2^63 - 1`. -/
def i64Max : Int := 2 ^ 63 - 1

/-- Embedding of `Snowflake` from `models/snowflake.rs`: a wrapper
around the raw 64-bit integer (the phantom entity-type parameter is
erased; it has no runtime content). -/
structure Snowflake where
  value : Int
deriving DecidableEq, Repr

/-- The character for a single decimal digit (`0 ≤ d ≤ 9`). -/
def digitChar (d : Nat) : Char := Char.ofNat (48 + d)

/-- Decimal digits of a natural number, most significant first; model of
the digit loop inside Rust's integer `to_string`. -/
def natDigits (n : Nat) : List Char :=
  if h : n < 10 then [digitChar n]
  else natDigits (n / 10) ++ [digitChar (n % 10)]
termination_by n
decreasing_by exact Nat.div_lt_self (by omega) (by omega)

/-- Rendering of an `i64` as its decimal string, the model of
`i64::to_string` used by `Serialize for Snowflake`. -/
def i64Render (v : Int) : String :=
  if v < 0 then String.mk ('-' :: natDigits (-v).toNat)
  else String.mk (natDigits v.toNat)

/-- Value of one decimal digit character, the model of
`char::to_digit(10)` used inside `i64::from_str`. -/
def digitVal (c : Char) : Option Nat :=
  if 48 ≤ c.toNat ∧ c.toNat ≤ 57 then some (c.toNat - 48) else none

/-- Left-to-right accumulation of decimal digits; `none` on the first
non-digit character. -/
def parseDigitsAux : Nat → List Char → Option Nat
  | acc, [] => some acc
  | acc, c :: cs =>
    match digitVal c with
    | some d => parseDigitsAux (acc * 10 + d) cs
    | none => none

/-- Parse a non-empty all-digit character list into a natural number. -/
def parseDigits (cs : List Char) : Option Nat :=
  match cs with
  | [] => none
  | _ => parseDigitsAux 0 cs

/-- Model of `i64::from_str`: optional sign, then decimal digits, with
the `i64` overflow checks (negative magnitudes up to `2^63`, positive
values strictly below `2^63`). -/
def i64FromStr (s : String) : Option Int :=
  match s.data with
  | [] => none
  | c :: cs =>
    if c = '-' then
      match parseDigits cs with
      | some n => if (n : Int) ≤ 2 ^ 63 then some (-(n : Int)) else none
      | none => none
    else if c = '+' then
      match parseDigits cs with
      | some n => if (n : Int) < 2 ^ 63 then some ((n : Int)) else none
      | none => none
    else
      match parseDigits (c :: cs) with
      | some n => if (n : Int) < 2 ^ 63 then some ((n : Int)) else none
      | none => none

/-- Minimal JSON value model for the serde wire format. -/
inductive Json where
  | str (s : String)
  | num (n : Int)
  | obj (fields : List (String × Json))
  | arr (elems : List Json)
  | jbool (b : Bool)
  | null
deriving Repr

/-- Embedding of `Serialize for Snowflake`:
`self.value.to_string().serialize(serializer)`. -/
def Snowflake.toJson (s : Snowflake) : Json := Json.str (i64Render s.value)

/-- Embedding of `Deserialize for Snowflake`: `String::deserialize`
followed by `.parse()` (`i64::from_str`). -/
def Snowflake.fromJson : Json → Option Snowflake
  | Json.str s => (i64FromStr s).map Snowflake.mk
  | _ => none

/-- Embedding of `PartialEq for Snowflake`: `self.value == other.value`. -/
def Snowflake.beq (a b : Snowflake) : Bool := a.value == b.value

/-- Embedding of `Hash for Snowflake`: `self.value.hash(state)`, i.e.
the hash of the ID is whatever the hasher produces on the raw integer. -/
def Snowflake.hashWith {α : Type} (h : Int → α) (s : Snowflake) : α := h s.value

theorem parseDigitsAux_append (l1 l2 : List Char) :
    ∀ acc, parseDigitsAux acc (l1 ++ l2) =
      match parseDigitsAux acc l1 with
      | some m => parseDigitsAux m l2
      | none => none := by
  induction l1 with
  | nil => intro acc; rfl
  | cons c cs ih =>
    intro acc
    simp only [List.cons_append, parseDigitsAux]
    cases digitVal c with
    | none => rfl
    | some d => exact ih (acc * 10 + d)

theorem digitVal_digitChar (d : Nat) (h : d < 10) :
    digitVal (digitChar d) = some d := by
  interval_cases d <;> decide

theorem digitChar_ne_dash (d : Nat) (h : d < 10) : digitChar d ≠ '-' := by
  interval_cases d <;> decide

theorem digitChar_ne_plus (d : Nat) (h : d < 10) : digitChar d ≠ '+' := by
  interval_cases d <;> decide

theorem natDigits_head (n : Nat) :
    ∃ d rest, d < 10 ∧ natDigits n = digitChar d :: rest := by
  induction n using Nat.strong_induction_on with
  | _ n ih =>
    rw [natDigits]
    by_cases h : n < 10
    · exact ⟨n, [], h, by simp [h]⟩
    · obtain ⟨d, rest, hd, heq⟩ := ih (n / 10) (Nat.div_lt_self (by omega) (by omega))
      exact ⟨d, rest ++ [digitChar (n % 10)], hd, by simp [h, heq]⟩

theorem parseDigitsAux_natDigits (n : Nat) :
    ∀ acc, parseDigitsAux acc (natDigits n) =
      some (acc * 10 ^ (natDigits n).length + n) := by
  induction n using Nat.strong_induction_on with
  | _ n ih =>
    intro acc
    rw [natDigits]
    by_cases h : n < 10
    · simp [h, parseDigitsAux, digitVal_digitChar n h]
    · simp only [h, dite_false]
      rw [parseDigitsAux_append]
      rw [ih (n / 10) (Nat.div_lt_self (by omega) (by omega)) acc]
      simp only [parseDigitsAux, digitVal_digitChar (n % 10) (Nat.mod_lt n (by omega))]
      have hmod := Nat.div_add_mod n 10
      simp only [List.length_append, List.length_cons, List.length_nil]
      rw [show (natDigits (n / 10)).length + (0 + 1) = (natDigits (n / 10)).length + 1 by omega]
      rw [pow_succ]
      congr 1
      nlinarith [hmod]

theorem parseDigits_natDigits (n : Nat) : parseDigits (natDigits n) = some n := by
  obtain ⟨d, rest, _, heq⟩ := natDigits_head n
  have h1 : parseDigits (natDigits n) = parseDigitsAux 0 (natDigits n) := by
    rw [heq]; rfl
  rw [h1, parseDigitsAux_natDigits n 0]
  simp

theorem i64FromStr_i64Render (v : Int) (h1 : i64Min ≤ v) (h2 : v ≤ i64Max) :
    i64FromStr (i64Render v) = some v := by
  by_cases hv : v < 0
  · have hdata : (i64Render v).data = '-' :: natDigits (-v).toNat := by
      simp [i64Render, hv]
    rw [i64FromStr, hdata]
    simp only [if_pos rfl]
    rw [parseDigits_natDigits]
    have hle : ((-v).toNat : Int) ≤ 2 ^ 63 := by
      rw [Int.toNat_of_nonneg (by omega)]
      simp only [i64Min] at h1
      omega
    simp only [hle, if_pos]
    congr 1
    rw [Int.toNat_of_nonneg (by omega)]
    omega
  · have hdata : (i64Render v).data = natDigits v.toNat := by
      simp [i64Render, hv]
    obtain ⟨d, rest, hd, heq⟩ := natDigits_head v.toNat
    rw [i64FromStr, hdata, heq]
    simp only [digitChar_ne_dash d hd, digitChar_ne_plus d hd, if_false, ← heq]
    rw [parseDigits_natDigits]
    have hlt : ((v.toNat : Int)) < 2 ^ 63 := by
      rw [Int.toNat_of_nonneg (by omega)]
      simp only [i64Max] at h2
      omega
    simp only [hlt, if_pos]
    congr 1
    rw [Int.toNat_of_nonneg (by omega)]

/-- C9: Snowflake serialisation is exactly the decimal-string rendering
of the raw 64-bit integer, deserialising that string returns an equal
ID (round trip), and equality and hashing of Snowflakes coincide with
equality and hashing of their raw integers. -/
theorem C9_snowflake_decimal_roundtrip_eq_hash (s : Snowflake)
    (h1 : i64Min ≤ s.value) (h2 : s.value ≤ i64Max) :
    Snowflake.toJson s = Json.str (i64Render s.value)
    ∧ Snowflake.fromJson (Snowflake.toJson s) = some s
    ∧ (∀ t : Snowflake, Snowflake.beq s t = (s.value == t.value))
    ∧ (∀ (α : Type) (h : Int → α), Snowflake.hashWith h s = h s.value) := by
  refine ⟨rfl, ?_, fun t => rfl, fun α h => rfl⟩
  simp only [Snowflake.toJson, Snowflake.fromJson]
  rw [i64FromStr_i64Render s.value h1 h2]
  rfl

/-- Witness for C9 at the concrete ID 1234567890. -/
theorem C9_witness :
    Snowflake.fromJson (Snowflake.toJson ⟨1234567890⟩) = some ⟨1234567890⟩ :=
  (C9_snowflake_decimal_roundtrip_eq_hash ⟨1234567890⟩ (by decide) (by decide)).2.1

/-! ## Event algebra (`models/gateway_event.rs`, payload structs from
`models/message.rs`, `models/member.rs`, `models/channel.rs`,
`models/guild.rs`, `models/user.rs`)

Only the fields consulted by the `EventLike` capability accessors and
the serde attributes relevant to the wire format are modelled. -/

/-- Presence enum from `models/user.rs`. -/
inductive Presence where
  | online
  | away
  | busy
  | offline
deriving DecidableEq, Repr

/-- User, reduced to the fields the gateway reads (`id()`). -/
structure User where
  id : Snowflake
deriving DecidableEq, Repr

/-- Member from `models/member.rs`: a user inside a guild. -/
structure Member where
  user : User
  guild_id : Snowflake
deriving DecidableEq, Repr

/-- UserLike from `models/member.rs`: either a member or a bare user. -/
inductive UserLike where
  | member (m : Member)
  | user (u : User)
deriving DecidableEq, Repr

/-- Embedding of `UserLike::id`. -/
def UserLike.id : UserLike → Snowflake
  | UserLike.member m => m.user.id
  | UserLike.user u => u.id

/-- Channel, reduced to the field `guild_id()` consulted by routing. -/
structure Channel where
  id : Snowflake
  guild_id : Snowflake
deriving DecidableEq, Repr

/-- Guild, reduced to the field `id()` consulted by routing. -/
structure Guild where
  id : Snowflake
deriving DecidableEq, Repr

/-- Message, reduced to the fields consulted by routing
(`author() : &Option<UserLike>`). -/
structure Message where
  id : Snowflake
  author : Option UserLike
deriving DecidableEq, Repr

/-- DeletePayload from `models/gateway_event.rs`: an ID plus an optional
`guild_id` routing field carrying `#[serde(skip)]`. -/
structure DeletePayload where
  id : Snowflake
  guild_id : Option Snowflake
deriving DecidableEq, Repr

/-- Payload of `PRESENCE_UPDATE`. -/
structure PresenceUpdatePayload where
  user_id : Snowflake
  presence : Presence
deriving DecidableEq, Repr

/-- Payload of `GUILD_CREATE`. -/
structure GuildCreatePayload where
  guild : Guild
  members : List Member
  channels : List Channel
deriving DecidableEq, Repr

/-- Payload of `READY`. -/
structure ReadyPayload where
  user : User
  guilds : List Guild
deriving DecidableEq, Repr

/-- Payload of `HELLO`. Modelled from the spec: the `HelloPayload`
struct (heartbeat interval in milliseconds) is referenced by
`gateway/handler.rs` but its definition is missing from the snapshot of
`models/gateway_event.rs`. -/
structure HelloPayload where
  heartbeat_interval : Nat
deriving DecidableEq, Repr

/-- The server→client event algebra of `models/gateway_event.rs`.
The `hello` and `heartbeatAck` variants are modelled from the spec:
`gateway/handler.rs` constructs `GatewayEvent::Hello` and
`GatewayEvent::HeartbeatAck`, but the snapshot of the enum predates
them; per the spec both are unscoped (sent directly, never routed by
guild or user scope). -/
inductive GatewayEvent where
  | messageCreate (m : Message)
  | memberCreate (m : Member)
  | memberRemove (p : DeletePayload)
  | guildCreate (p : GuildCreatePayload)
  | guildRemove (p : DeletePayload)
  | channelCreate (c : Channel)
  | channelRemove (p : DeletePayload)
  | presenceUpdate (p : PresenceUpdatePayload)
  | ready (p : ReadyPayload)
  | invalidSession (reason : String)
  | hello (p : HelloPayload)
  | heartbeatAck
deriving DecidableEq, Repr

/-- Embedding of `EventLike::extract_guild_id for Message`: the guild of
the author when the author is a member. -/
def Message.extract_guild_id (m : Message) : Option Snowflake :=
  match m.author with
  | some (UserLike.member mem) => some mem.guild_id
  | _ => none

/-- Embedding of `EventLike::extract_user_id for Message`. -/
def Message.extract_user_id (m : Message) : Option Snowflake :=
  m.author.map UserLike.id

/-- Embedding of `EventLike::extract_guild_id for GatewayEvent`. -/
def GatewayEvent.extract_guild_id : GatewayEvent → Option Snowflake
  | GatewayEvent.messageCreate m => m.extract_guild_id
  | GatewayEvent.memberCreate m => some m.guild_id
  | GatewayEvent.memberRemove p => p.guild_id
  | GatewayEvent.guildCreate p => some p.guild.id
  | GatewayEvent.guildRemove p => p.guild_id
  | GatewayEvent.channelCreate c => some c.guild_id
  | GatewayEvent.channelRemove p => p.guild_id
  | GatewayEvent.presenceUpdate _ => none
  | GatewayEvent.ready _ => none
  | GatewayEvent.invalidSession _ => none
  | GatewayEvent.hello _ => none
  | GatewayEvent.heartbeatAck => none

/-- Embedding of `EventLike::extract_user_id for GatewayEvent`. -/
def GatewayEvent.extract_user_id : GatewayEvent → Option Snowflake
  | GatewayEvent.messageCreate m => m.extract_user_id
  | GatewayEvent.memberCreate m => some m.user.id
  | GatewayEvent.memberRemove _ => none
  | GatewayEvent.guildCreate _ => none
  | GatewayEvent.guildRemove _ => none
  | GatewayEvent.channelCreate _ => none
  | GatewayEvent.channelRemove _ => none
  | GatewayEvent.presenceUpdate p => some p.user_id
  | GatewayEvent.ready p => some p.user.id
  | GatewayEvent.invalidSession _ => none
  | GatewayEvent.hello _ => none
  | GatewayEvent.heartbeatAck => none

/-- Embedding of the derived `Serialize for DeletePayload`: the
`guild_id` field carries `#[serde(skip)]`, so the emitted JSON object
holds only the `id` field (a decimal string). -/
def DeletePayload.toJson (p : DeletePayload) : Json :=
  Json.obj [("id", p.id.toJson)]

/-! ## Connection registry (`gateway/handler.rs`)

`DashMap<Snowflake, ConnectionHandle>` is embedded as an association
list; a handle's mpsc sender is embedded as the list of responses
enqueued so far (`outbox`) plus a liveness flag (`sender_open`: whether
the receiving writer task still exists, i.e. whether `send` succeeds);
its `HashSet<Snowflake>` of guild IDs is a duplicate-free list. -/

/-- Close codes from the `GatewayCloseCode` enum. -/
inductive GatewayCloseCode where
  | normal
  | goingAway
  | protocolError
  | unsupported
  | noStatus
  | abnormal
  | invalidPayload
  | policyViolation
  | tooLarge
  | extensionRequired
  | serverError
  | serviceRestart
  | tryAgainLater
  | badGateway
  | tlsHandshakeFail
deriving DecidableEq, Repr

/-- Embedding of `From<GatewayCloseCode> for u16`. -/
def GatewayCloseCode.toNat : GatewayCloseCode → Nat
  | GatewayCloseCode.normal => 1000
  | GatewayCloseCode.goingAway => 1001
  | GatewayCloseCode.protocolError => 1002
  | GatewayCloseCode.unsupported => 1003
  | GatewayCloseCode.noStatus => 1005
  | GatewayCloseCode.abnormal => 1006
  | GatewayCloseCode.invalidPayload => 1007
  | GatewayCloseCode.policyViolation => 1008
  | GatewayCloseCode.tooLarge => 1009
  | GatewayCloseCode.extensionRequired => 1010
  | GatewayCloseCode.serverError => 1011
  | GatewayCloseCode.serviceRestart => 1012
  | GatewayCloseCode.tryAgainLater => 1013
  | GatewayCloseCode.badGateway => 1014
  | GatewayCloseCode.tlsHandshakeFail => 1015

/-- The outbound response algebra (`GatewayResponse`): queue an event
payload, or initiate a close on the writer path. -/
inductive GatewayResponse where
  | event (e : GatewayEvent)
  | close (code : GatewayCloseCode) (reason : String)
deriving DecidableEq, Repr

/-- Embedding of `ConnectionHandle`: the outbound queue contents plus
sender liveness stand in for the `mpsc::UnboundedSender`, and
`guild_ids` is the mutable membership cache. -/
structure ConnectionHandle where
  sender_open : Bool
  outbox : List GatewayResponse
  guild_ids : List Snowflake
deriving DecidableEq, Repr

/-- Embedding of `ConnectionHandle::send`: enqueue an event; fails
(`SendError`) exactly when the receiver (writer task) is gone. -/
def ConnectionHandle.send (h : ConnectionHandle) (e : GatewayEvent) :
    Option ConnectionHandle :=
  if h.sender_open then
    some { h with outbox := h.outbox ++ [GatewayResponse.event e] }
  else none

/-- Embedding of `ConnectionHandle::close`: enqueue a close response;
fails exactly when the receiver is gone. -/
def ConnectionHandle.close (h : ConnectionHandle) (code : GatewayCloseCode)
    (reason : String) : Option ConnectionHandle :=
  if h.sender_open then
    some { h with outbox := h.outbox ++ [GatewayResponse.close code reason] }
  else none

/-- First-match lookup in the peer association list (the embedding of
`DashMap::get`). -/
def lookupPeer : List (Snowflake × ConnectionHandle) → Snowflake →
    Option ConnectionHandle
  | [], _ => none
  | (k, h) :: rest, u => if k = u then some h else lookupPeer rest u

/-- Embedding of `DashMap::insert`: replace the entry if the key is
present, else append it. -/
def insertPeer (l : List (Snowflake × ConnectionHandle)) (u : Snowflake)
    (h : ConnectionHandle) : List (Snowflake × ConnectionHandle) :=
  if (lookupPeer l u).isSome then
    l.map (fun p => if p.1 = u then (p.1, h) else p)
  else l ++ [(u, h)]

/-- Embedding of `DashMap::remove`. -/
def erasePeer : List (Snowflake × ConnectionHandle) → Snowflake →
    List (Snowflake × ConnectionHandle)
  | [], _ => []
  | (k, h) :: rest, u =>
    if k = u then erasePeer rest u else (k, h) :: erasePeer rest u

/-- Replace the handle stored under a key (the embedding of writing
through a `DashMap` entry reference). -/
def setPeer (l : List (Snowflake × ConnectionHandle)) (u : Snowflake)
    (h : ConnectionHandle) : List (Snowflake × ConnectionHandle) :=
  l.map (fun p => if p.1 = u then (p.1, h) else p)

/-- Mutate the handle stored under a key in place (the embedding of
`DashMap::get_mut`). -/
def updatePeer (l : List (Snowflake × ConnectionHandle)) (u : Snowflake)
    (f : ConnectionHandle → ConnectionHandle) :
    List (Snowflake × ConnectionHandle) :=
  l.map (fun p => if p.1 = u then (p.1, f p.2) else p)

/-- Embedding of the `Gateway` registry singleton. -/
structure Gateway where
  peers : List (Snowflake × ConnectionHandle)
deriving DecidableEq, Repr

/-- Embedding of `Gateway::add_handle`: `self.peers.insert(user_id,
handle)` — a plain map insert, nothing else. -/
def Gateway.add_handle (gw : Gateway) (user_id : Snowflake)
    (handle : ConnectionHandle) : Gateway :=
  ⟨insertPeer gw.peers user_id handle⟩

/-- Embedding of `Gateway::remove_handle`. -/
def Gateway.remove_handle (gw : Gateway) (user_id : Snowflake) : Gateway :=
  ⟨erasePeer gw.peers user_id⟩

/-- Embedding of `Gateway::is_connected`. -/
def Gateway.is_connected (gw : Gateway) (user : Snowflake) : Bool :=
  (lookupPeer gw.peers user).isSome

/-- Embedding of `Gateway::shares_guilds_with`: both users are
connected and their `guild_ids` sets have non-empty intersection
(`intersection(..).next().is_some()`). -/
def Gateway.shares_guilds_with (gw : Gateway) (a b : Snowflake) : Bool :=
  match lookupPeer gw.peers a, lookupPeer gw.peers b with
  | some ha, some hb => ha.guild_ids.any (fun g => hb.guild_ids.contains g)
  | _, _ => false

/-- Embedding of `Gateway::send_to`: enqueue for one user; on send
failure remove the handle (the writer has exited). -/
def Gateway.send_to (gw : Gateway) (user : Snowflake) (event : GatewayEvent) :
    Gateway :=
  match lookupPeer gw.peers user with
  | none => gw
  | some h =>
    match h.send event with
    | some h2 => ⟨setPeer gw.peers user h2⟩
    | none => gw.remove_handle user

/-- Embedding of `Gateway::drop_session`: enqueue `Close(code, reason)`
for the user if connected; a send failure is ignored (`.ok()`). -/
def Gateway.drop_session (gw : Gateway) (user_id : Snowflake)
    (code : GatewayCloseCode) (reason : String) : Gateway :=
  match lookupPeer gw.peers user_id with
  | none => gw
  | some h =>
    match h.close code reason with
    | some h2 => ⟨setPeer gw.peers user_id h2⟩
    | none => gw

/-- Embedding of `Gateway::add_member`: insert into the handle's
`guild_ids` HashSet if the user is connected. -/
def Gateway.add_member (gw : Gateway) (user guild : Snowflake) : Gateway :=
  ⟨updatePeer gw.peers user (fun h =>
    if h.guild_ids.contains guild then h
    else { h with guild_ids := h.guild_ids ++ [guild] })⟩

/-- Embedding of `Gateway::remove_member`: remove from the handle's
`guild_ids` HashSet if the user is connected. -/
def Gateway.remove_member (gw : Gateway) (user guild : Snowflake) : Gateway :=
  ⟨updatePeer gw.peers user (fun h =>
    { h with guild_ids := h.guild_ids.filter (fun g => g ≠ guild) })⟩

/-- The routing predicate applied to each visited handle inside
`Gateway::dispatch`: guild-scoped events go to members of that guild;
otherwise user-scoped events go to peers sharing a guild with the
subject; otherwise everyone. -/
def Gateway.routeTo (gw : Gateway) (event : GatewayEvent) (uid : Snowflake)
    (handle : ConnectionHandle) : Bool :=
  match event.extract_guild_id with
  | some event_guild => handle.guild_ids.contains event_guild
  | none =>
    match event.extract_user_id with
    | some user_id => gw.shares_guilds_with uid user_id
    | none => true

/-- The users whose outbound queue receives the event from
`Gateway::dispatch`: those visited handles that pass the routing
predicate and whose `handle.send` succeeds. -/
def Gateway.dispatchTargets (gw : Gateway) (event : GatewayEvent) :
    List Snowflake :=
  ((gw.peers.filter (fun p => gw.routeTo event p.1 p.2 && p.2.sender_open)).map
    Prod.fst)

/-- State effect of `Gateway::dispatch`: every passing live handle gets
the event enqueued; handles whose send failed are collected in
`to_drop` and removed after the iteration. -/
def Gateway.dispatch (gw : Gateway) (event : GatewayEvent) : Gateway :=
  let sent := gw.peers.map (fun p =>
    if gw.routeTo event p.1 p.2 then (p.1, (p.2.send event).getD p.2) else p)
  let toDrop := ((gw.peers.filter (fun p =>
    gw.routeTo event p.1 p.2 && !p.2.sender_open)).map Prod.fst)
  ⟨toDrop.foldl (fun l u => erasePeer l u) sent⟩

/-! ## Association-list lemmas for the registry embedding -/

theorem lookupPeer_isSome_of_mem {l : List (Snowflake × ConnectionHandle)}
    {w : Snowflake} {h : ConnectionHandle} (hmem : (w, h) ∈ l) :
    (lookupPeer l w).isSome = true := by
  induction l with
  | nil => cases hmem
  | cons p rest ih =>
    obtain ⟨k, hk⟩ := p
    rcases List.mem_cons.mp hmem with heq | hmem2
    · injection heq with h1 h2
      subst h1
      simp [lookupPeer]
    · by_cases hkw : k = w
      · simp [lookupPeer, hkw]
      · simpa [lookupPeer, hkw] using ih hmem2

theorem mem_of_lookupPeer {l : List (Snowflake × ConnectionHandle)}
    {w : Snowflake} {h : ConnectionHandle} (hl : lookupPeer l w = some h) :
    (w, h) ∈ l := by
  induction l with
  | nil => simp [lookupPeer] at hl
  | cons p rest ih =>
    obtain ⟨k, hk⟩ := p
    by_cases hkw : k = w
    · subst hkw
      simp [lookupPeer] at hl
      rw [← hl]
      exact List.mem_cons_self _ _
    · simp only [lookupPeer, if_neg hkw] at hl
      exact List.mem_cons_of_mem _ (ih hl)

theorem lookupPeer_eq_of_mem_nodup {l : List (Snowflake × ConnectionHandle)}
    {w : Snowflake} {h : ConnectionHandle}
    (hnodup : (l.map Prod.fst).Nodup) (hmem : (w, h) ∈ l) :
    lookupPeer l w = some h := by
  induction l with
  | nil => cases hmem
  | cons p rest ih =>
    obtain ⟨k, hk⟩ := p
    simp only [List.map_cons, List.nodup_cons] at hnodup
    rcases List.mem_cons.mp hmem with heq | hmem2
    · injection heq with h1 h2
      subst h1; subst h2
      simp [lookupPeer]
    · by_cases hkw : k = w
      · subst hkw
        exact absurd (List.mem_map_of_mem Prod.fst hmem2) hnodup.1
      · simp only [lookupPeer, if_neg hkw]
        exact ih hnodup.2 hmem2

theorem lookupPeer_map (l : List (Snowflake × ConnectionHandle))
    (f : Snowflake → ConnectionHandle → ConnectionHandle) (w : Snowflake) :
    lookupPeer (l.map (fun p => (p.1, f p.1 p.2))) w =
      (lookupPeer l w).map (f w) := by
  induction l with
  | nil => rfl
  | cons p rest ih =>
    obtain ⟨k, hk⟩ := p
    by_cases hkw : k = w
    · subst hkw
      simp [lookupPeer]
    · simp [lookupPeer, hkw, ih]

theorem setPeer_eq_map (l : List (Snowflake × ConnectionHandle))
    (u : Snowflake) (h2 : ConnectionHandle) :
    setPeer l u h2 =
      l.map (fun p => (p.1, if p.1 = u then h2 else p.2)) := by
  unfold setPeer
  congr 1
  funext p
  by_cases h : p.1 = u <;> simp [h]

theorem updatePeer_eq_map (l : List (Snowflake × ConnectionHandle))
    (u : Snowflake) (f : ConnectionHandle → ConnectionHandle) :
    updatePeer l u f =
      l.map (fun p => (p.1, if p.1 = u then f p.2 else p.2)) := by
  unfold updatePeer
  congr 1
  funext p
  by_cases h : p.1 = u <;> simp [h]

theorem lookupPeer_setPeer (l : List (Snowflake × ConnectionHandle))
    (u w : Snowflake) (h2 : ConnectionHandle) :
    lookupPeer (setPeer l u h2) w =
      (lookupPeer l w).map (fun h => if w = u then h2 else h) := by
  rw [setPeer_eq_map, lookupPeer_map l (fun k h => if k = u then h2 else h) w]

theorem lookupPeer_updatePeer (l : List (Snowflake × ConnectionHandle))
    (u w : Snowflake) (f : ConnectionHandle → ConnectionHandle) :
    lookupPeer (updatePeer l u f) w =
      (lookupPeer l w).map (fun h => if w = u then f h else h) := by
  rw [updatePeer_eq_map,
    lookupPeer_map l (fun k h => if k = u then f h else h) w]

theorem lookupPeer_erasePeer (l : List (Snowflake × ConnectionHandle))
    (u w : Snowflake) :
    lookupPeer (erasePeer l u) w =
      if w = u then none else lookupPeer l w := by
  induction l with
  | nil => simp only [erasePeer, lookupPeer]; split <;> rfl
  | cons p rest ih =>
    obtain ⟨k, hk⟩ := p
    by_cases hku : k = u <;> by_cases hwk : w = k
    · subst hku; subst hwk
      simpa [erasePeer, lookupPeer] using ih
    · subst hku
      have hkw : ¬ k = w := fun h => hwk h.symm
      simp [erasePeer, ih, lookupPeer, hkw, hwk]
    · subst hwk
      simp [erasePeer, hku, lookupPeer]
    · have hkw : ¬ k = w := fun h => hwk h.symm
      simp only [erasePeer, if_neg hku, lookupPeer, if_neg hkw, ih]

theorem mem_dispatchTargets_iff (gw : Gateway) (e : GatewayEvent)
    (w : Snowflake) :
    w ∈ gw.dispatchTargets e ↔
      ∃ h, (w, h) ∈ gw.peers ∧ gw.routeTo e w h = true ∧
        h.sender_open = true := by
  simp only [Gateway.dispatchTargets, List.mem_map, List.mem_filter,
    Bool.and_eq_true]
  constructor
  · rintro ⟨⟨w2, h⟩, ⟨hmem, hr, ho⟩, rfl⟩
    exact ⟨h, hmem, hr, ho⟩
  · rintro ⟨h, hmem, hr, ho⟩
    exact ⟨(w, h), ⟨hmem, hr, ho⟩, rfl⟩

/-! ## C1: recipients of user-scoped events -/

/-- Handle of the connected subject in the C1 counterexample: live
writer, empty outbound queue, member of no guild. -/
def c1Handle : ConnectionHandle := ⟨true, [], []⟩

/-- Registry for the C1 counterexample: only user 1 is connected. -/
def c1Gw : Gateway := ⟨[(⟨1⟩, c1Handle)]⟩

/-- The dispatched event of the C1 counterexample: a presence update
about user 1 (user-scoped, not guild-scoped). -/
def c1Event : GatewayEvent := GatewayEvent.presenceUpdate ⟨⟨1⟩, Presence.online⟩

/-- C1 counterexample: user 1 is connected with an empty `guild_ids`
set, the event is user-scoped to user 1, yet `dispatch` delivers the
event to nobody — the code's predicate is `shares_guilds_with(w, u)`
alone, with no `w == u` disjunct, so the subject does not receive
their own event. -/
theorem C1_counterexample :
    c1Gw.is_connected ⟨1⟩ = true
    ∧ c1Event.extract_guild_id = none
    ∧ c1Event.extract_user_id = some ⟨1⟩
    ∧ c1Gw.dispatchTargets c1Event = [] := by
  refine ⟨rfl, rfl, rfl, rfl⟩

/-- C1 as amended: for a dispatched event with no guild scope and user
scope `u`, the recipients are exactly the connected users `w` with
`shares_guilds_with(w, u)`; in particular the subject `u` receives the
event only when `shares_guilds_with(u, u)` holds, i.e. when `u`'s own
`guild_ids` set is non-empty (all registered handles are assumed live,
matching the invariant that a registered handle has a running writer). -/
theorem C1_amended_user_scope_recipients (gw : Gateway) (e : GatewayEvent)
    (u : Snowflake)
    (hg : e.extract_guild_id = none) (hu : e.extract_user_id = some u)
    (hall : ∀ p ∈ gw.peers, p.2.sender_open = true) :
    ∀ w, w ∈ gw.dispatchTargets e ↔
      (gw.is_connected w = true ∧ gw.shares_guilds_with w u = true) := by
  intro w
  rw [mem_dispatchTargets_iff]
  constructor
  · rintro ⟨h, hmem, hr, _⟩
    refine ⟨lookupPeer_isSome_of_mem hmem, ?_⟩
    simpa [Gateway.routeTo, hg, hu] using hr
  · rintro ⟨hc, hs⟩
    obtain ⟨h, hl⟩ := Option.isSome_iff_exists.mp hc
    exact ⟨h, mem_of_lookupPeer hl, by simp [Gateway.routeTo, hg, hu, hs],
      hall _ (mem_of_lookupPeer hl)⟩

/-- Registry for the C1 amended witness: user 1 and user 2 both in
guild 7, user 3 in guild 9 only. -/
def c1wGw : Gateway :=
  ⟨[(⟨1⟩, ⟨true, [], [⟨7⟩]⟩), (⟨2⟩, ⟨true, [], [⟨7⟩]⟩),
    (⟨3⟩, ⟨true, [], [⟨9⟩]⟩)]⟩

/-- Witness for the amended C1: with the subject 1 in guild 7, peer 2
in guild 7 and peer 3 in guild 9 only, the presence update about user 1
reaches exactly users 1 and 2. -/
theorem C1_witness :
    ((⟨1⟩ : Snowflake) ∈ c1wGw.dispatchTargets
        (GatewayEvent.presenceUpdate ⟨⟨1⟩, Presence.online⟩)
      ↔ (c1wGw.is_connected ⟨1⟩ = true
          ∧ c1wGw.shares_guilds_with ⟨1⟩ ⟨1⟩ = true))
    ∧ ((⟨3⟩ : Snowflake) ∈ c1wGw.dispatchTargets
        (GatewayEvent.presenceUpdate ⟨⟨1⟩, Presence.online⟩)
      ↔ (c1wGw.is_connected ⟨3⟩ = true
          ∧ c1wGw.shares_guilds_with ⟨3⟩ ⟨1⟩ = true)) :=
  ⟨C1_amended_user_scope_recipients c1wGw
      (GatewayEvent.presenceUpdate ⟨⟨1⟩, Presence.online⟩) ⟨1⟩ rfl rfl
      (by decide) ⟨1⟩,
    C1_amended_user_scope_recipients c1wGw
      (GatewayEvent.presenceUpdate ⟨⟨1⟩, Presence.online⟩) ⟨1⟩ rfl rfl
      (by decide) ⟨3⟩⟩

/-! ## C3: guild-scoped delivery predicate -/

/-- C3: a dispatched event that is guild-scoped to `g` is delivered to
a connected user's outbound queue iff `g` is in that user's handle's
`guild_ids` when the router visits the handle — the user scope of the
event is never consulted (no hypothesis constrains it), and the
originator receives their own guild-scoped event iff they are in `g`. -/
theorem C3_guild_scope_filter (gw : Gateway) (e : GatewayEvent)
    (g u : Snowflake) (h : ConnectionHandle)
    (hg : e.extract_guild_id = some g)
    (hnodup : (gw.peers.map Prod.fst).Nodup)
    (hl : lookupPeer gw.peers u = some h)
    (hopen : h.sender_open = true) :
    u ∈ gw.dispatchTargets e ↔ g ∈ h.guild_ids := by
  rw [mem_dispatchTargets_iff]
  constructor
  · rintro ⟨h2, hmem, hr, _⟩
    have heq : lookupPeer gw.peers u = some h2 :=
      lookupPeer_eq_of_mem_nodup hnodup hmem
    rw [hl] at heq
    injection heq with he
    subst he
    simpa [Gateway.routeTo, hg] using hr
  · intro hcont
    exact ⟨h, mem_of_lookupPeer hl, by simp [Gateway.routeTo, hg, hcont],
      hopen⟩

/-- Registry for the C3 witness: user 1 in guild 7 only, user 2 in
guild 9 only. -/
def c3Gw : Gateway := ⟨[(⟨1⟩, ⟨true, [], [⟨7⟩]⟩), (⟨2⟩, ⟨true, [], [⟨9⟩]⟩)]⟩

/-- Event for the C3 witness: a message authored by user 1 as a member
of guild 7 (guild-scoped to 7, user-scoped to 1). -/
def c3Event : GatewayEvent :=
  GatewayEvent.messageCreate ⟨⟨100⟩, some (UserLike.member ⟨⟨⟨1⟩⟩, ⟨7⟩⟩)⟩

/-- Witness for C3: the originator (user 1, in guild 7) receives their
own guild-scoped message; user 2 (guild 9 only) does not. -/
theorem C3_witness :
    ((⟨1⟩ : Snowflake) ∈ c3Gw.dispatchTargets c3Event
      ↔ (⟨7⟩ : Snowflake) ∈ [(⟨7⟩ : Snowflake)])
    ∧ ((⟨2⟩ : Snowflake) ∈ c3Gw.dispatchTargets c3Event
      ↔ (⟨7⟩ : Snowflake) ∈ [(⟨9⟩ : Snowflake)]) :=
  ⟨C3_guild_scope_filter c3Gw c3Event ⟨7⟩ ⟨1⟩ ⟨true, [], [⟨7⟩]⟩ rfl
      (by decide) rfl rfl,
    C3_guild_scope_filter c3Gw c3Event ⟨7⟩ ⟨2⟩ ⟨true, [], [⟨9⟩]⟩ rfl
      (by decide) rfl rfl⟩

/-! ## C2: registering over an existing handle -/

/-- Handle of the first session in the C2 counterexample (user 5, in
guild 7, live writer, empty queue). -/
def c2OldHandle : ConnectionHandle := ⟨true, [], [⟨7⟩]⟩

/-- Handle of the second session in the C2 counterexample. -/
def c2NewHandle : ConnectionHandle := ⟨true, [], [⟨7⟩, ⟨8⟩]⟩

/-- Registry before the second handshake of user 5. -/
def c2Gw : Gateway := ⟨[(⟨5⟩, c2OldHandle)]⟩

/-- C2 counterexample: `Gateway::add_handle` is a plain map insert.
Re-registering user 5 replaces the old handle, but after the operation
no outbound queue in the registry holds any response at all — in
particular no `Close(Normal, "replaced by new session")` was enqueued
on the previous handle (that string occurs nowhere in the source). -/
theorem C2_counterexample :
    (c2Gw.add_handle ⟨5⟩ c2NewHandle).peers = [(⟨5⟩, c2NewHandle)]
    ∧ (∀ p ∈ (c2Gw.add_handle ⟨5⟩ c2NewHandle).peers,
        p.2.outbox = ([] : List GatewayResponse))
    ∧ c2OldHandle.outbox = ([] : List GatewayResponse) := by
  refine ⟨by decide, by decide, rfl⟩

/-- C2 as amended: a second successful registration for a user already
in the registry silently replaces the previous handle — the new handle
is installed, every other entry is untouched, and every handle present
afterwards is either the new handle or an unchanged pre-existing one,
so no `Close` response is enqueued anywhere by the registration (the
old session is torn down only by the drop of its queue sender). -/
theorem C2_amended_silent_replace (gw : Gateway) (uid : Snowflake)
    (h : ConnectionHandle)
    (hprev : (lookupPeer gw.peers uid).isSome = true) :
    lookupPeer (gw.add_handle uid h).peers uid = some h
    ∧ (∀ w, w ≠ uid →
        lookupPeer (gw.add_handle uid h).peers w = lookupPeer gw.peers w)
    ∧ (∀ p ∈ (gw.add_handle uid h).peers, p.2 = h ∨ p ∈ gw.peers) := by
  have hins : (gw.add_handle uid h).peers = setPeer gw.peers uid h := by
    simp [Gateway.add_handle, insertPeer, hprev, setPeer]
  refine ⟨?_, ?_, ?_⟩
  · rw [hins, lookupPeer_setPeer]
    obtain ⟨h0, hl⟩ := Option.isSome_iff_exists.mp hprev
    simp [hl]
  · intro w hw
    rw [hins, lookupPeer_setPeer]
    cases lookupPeer gw.peers w <;> simp [hw]
  · intro p hp
    rw [hins, setPeer_eq_map] at hp
    obtain ⟨q, hq, hmap⟩ := List.mem_map.mp hp
    by_cases hqu : q.1 = uid
    · left
      rw [← hmap]
      simp [hqu]
    · right
      rw [← hmap]
      simpa [hqu] using hq

/-- Witness for the amended C2: re-registering user 5 over `c2Gw`
installs the new handle and leaves no other entry behind. -/
theorem C2_witness :
    lookupPeer (c2Gw.add_handle ⟨5⟩ c2NewHandle).peers ⟨5⟩ = some c2NewHandle
    ∧ lookupPeer (c2Gw.add_handle ⟨5⟩ c2NewHandle).peers ⟨6⟩ =
        lookupPeer c2Gw.peers ⟨6⟩ :=
  ⟨(C2_amended_silent_replace c2Gw ⟨5⟩ c2NewHandle (by decide)).1,
    (C2_amended_silent_replace c2Gw ⟨5⟩ c2NewHandle (by decide)).2.1 ⟨6⟩
      (by decide)⟩

/-! ## C6: heartbeat watchdog (`handle_heartbeating`) -/

/-- The timeout the watchdog races against the heartbeat receiver:
`heartbeat_interval + Duration::from_secs(5)`, in milliseconds. -/
def watchdogWait (heartbeat_interval_ms : Nat) : Nat :=
  heartbeat_interval_ms + 5000

/-- Outcome of one wait of the watchdog loop's `select`: a `Heartbeat`
arrived on the inbound bus, the sleep won (timeout), the bus closed
(receiver error), or the spawned heartbeat task failed to join. -/
inductive WatchdogOutcome where
  | heartbeat
  | timeout
  | busClosed
  | joinFailed
deriving DecidableEq, Repr

/-- One iteration of `handle_heartbeating`: if the user is no longer
registered the loop returns; on a heartbeat it replies `HeartbeatAck`
via `send_to` and continues; on timeout / bus closure / join failure it
enqueues the matching `Close` via `drop_session` and exits. The
returned `Bool` is whether the loop keeps running. -/
def handle_heartbeating_step (gw : Gateway) (user_id : Snowflake)
    (o : WatchdogOutcome) : Gateway × Bool :=
  if (lookupPeer gw.peers user_id).isNone then (gw, false)
  else
    match o with
    | WatchdogOutcome.heartbeat =>
      (gw.send_to user_id GatewayEvent.heartbeatAck, true)
    | WatchdogOutcome.timeout =>
      (gw.drop_session user_id GatewayCloseCode.policyViolation
        "No HEARTBEAT received within timeframe", false)
    | WatchdogOutcome.busClosed =>
      (gw.drop_session user_id GatewayCloseCode.invalidPayload
        "Invalid payload", false)
    | WatchdogOutcome.joinFailed =>
      (gw.drop_session user_id GatewayCloseCode.serverError
        "Unknown error", false)

/-- C6: the watchdog races heartbeats against a timeout of
`heartbeat_interval` plus a 5-second grace; on a received heartbeat it
enqueues `HeartbeatAck` on the user's outbound queue via `send_to` and
keeps running; on timeout it enqueues
`Close(PolicyViolation, "No HEARTBEAT received within timeframe")` and
exits. -/
theorem C6_heartbeat_watchdog (gw : Gateway) (user_id : Snowflake)
    (h : ConnectionHandle) (interval : Nat)
    (hl : lookupPeer gw.peers user_id = some h)
    (hopen : h.sender_open = true) :
    watchdogWait interval = interval + 5000
    ∧ (handle_heartbeating_step gw user_id WatchdogOutcome.heartbeat).2 = true
    ∧ lookupPeer
        (handle_heartbeating_step gw user_id WatchdogOutcome.heartbeat).1.peers
        user_id =
      some { h with outbox :=
        h.outbox ++ [GatewayResponse.event GatewayEvent.heartbeatAck] }
    ∧ (handle_heartbeating_step gw user_id WatchdogOutcome.timeout).2 = false
    ∧ lookupPeer
        (handle_heartbeating_step gw user_id WatchdogOutcome.timeout).1.peers
        user_id =
      some { h with outbox :=
        h.outbox ++ [GatewayResponse.close GatewayCloseCode.policyViolation
          "No HEARTBEAT received within timeframe"] } := by
  refine ⟨rfl, ?_, ?_, ?_, ?_⟩ <;>
    simp [handle_heartbeating_step, hl, Gateway.send_to, Gateway.drop_session,
      ConnectionHandle.send, ConnectionHandle.close, hopen,
      lookupPeer_setPeer]

/-- Registry for the C6 witness: user 9 connected, in guild 7, live. -/
def c6Gw : Gateway := ⟨[(⟨9⟩, ⟨true, [], [⟨7⟩]⟩)]⟩

/-- Witness for C6 at user 9 of `c6Gw`. -/
theorem C6_witness :
    lookupPeer
      (handle_heartbeating_step c6Gw ⟨9⟩ WatchdogOutcome.timeout).1.peers
      ⟨9⟩ =
      some ⟨true,
        [GatewayResponse.close GatewayCloseCode.policyViolation
          "No HEARTBEAT received within timeframe"], [⟨7⟩]⟩ :=
  (C6_heartbeat_watchdog c6Gw ⟨9⟩ ⟨true, [], [⟨7⟩]⟩ 45000 rfl rfl).2.2.2.2

/-! ## C5: ordering of the guild-leave steps (`rest/routes/guilds.rs`) -/

theorem dispatch_all_open (gw : Gateway) (e : GatewayEvent)
    (hall : ∀ p ∈ gw.peers, p.2.sender_open = true) :
    gw.dispatch e = ⟨gw.peers.map (fun p =>
      (p.1, if gw.routeTo e p.1 p.2 then
        { p.2 with outbox := p.2.outbox ++ [GatewayResponse.event e] }
      else p.2))⟩ := by
  unfold Gateway.dispatch
  have hdrop : (gw.peers.filter (fun p =>
      gw.routeTo e p.1 p.2 && !p.2.sender_open)) = [] := by
    rw [List.filter_eq_nil_iff]
    intro p hp
    simp [hall p hp]
  simp only [hdrop, List.map_nil, List.foldl_nil]
  congr 1
  apply List.map_congr_left
  intro p hp
  by_cases hr : gw.routeTo e p.1 p.2
  · simp [hr, ConnectionHandle.send, hall p hp]
  · simp [hr]

/-- The gateway suffix of `leave_guild` in the order the code executes
it (after the store commit, which precedes all of these steps): remove
the member from the registry cache, then dispatch the `MemberRemove`
event, then `send_to` the departing user the `GuildRemove` event. -/
def leave_guild (gw : Gateway) (user guild : Snowflake)
    (memberRemoveEv guildRemoveEv : GatewayEvent) : Gateway :=
  ((gw.remove_member user guild).dispatch memberRemoveEv).send_to user
    guildRemoveEv

/-- The ordering the specification prescribes for the same steps:
dispatch `MemberRemove` first (while the departing user is still cached
as a member of the guild), then remove the member from the registry,
then `send_to` the `GuildRemove` event. Stated for comparison with
`leave_guild`. -/
def leave_guild_spec (gw : Gateway) (user guild : Snowflake)
    (memberRemoveEv guildRemoveEv : GatewayEvent) : Gateway :=
  ((gw.dispatch memberRemoveEv).remove_member user guild).send_to user
    guildRemoveEv

/-- Registry for the C5 counterexample: the departing user 1 is
connected and a member of guild 7. -/
def c5Gw : Gateway := ⟨[(⟨1⟩, ⟨true, [], [⟨7⟩]⟩)]⟩

/-- The `MemberRemove` event for user 1 leaving guild 7 (guild-scoped
to 7 through its `DeletePayload`). -/
def c5Ev : GatewayEvent := GatewayEvent.memberRemove ⟨⟨1⟩, some ⟨7⟩⟩

/-- The `GuildRemove` event sent to the departing user. -/
def c5Gev : GatewayEvent := GatewayEvent.guildRemove ⟨⟨7⟩, none⟩

/-- C5 counterexample: the code removes the membership from the
registry before dispatching `MemberRemove`, so the departing user —
no longer cached as a member of guild 7 at dispatch time — does not
receive the `MemberRemove` event; under the claimed ordering (dispatch
before registry removal) they would. -/
theorem C5_counterexample :
    lookupPeer (leave_guild c5Gw ⟨1⟩ ⟨7⟩ c5Ev c5Gev).peers ⟨1⟩ =
      some ⟨true, [GatewayResponse.event c5Gev], []⟩
    ∧ lookupPeer (leave_guild_spec c5Gw ⟨1⟩ ⟨7⟩ c5Ev c5Gev).peers ⟨1⟩ =
      some ⟨true,
        [GatewayResponse.event c5Ev, GatewayResponse.event c5Gev], []⟩ := by
  refine ⟨by decide, by decide⟩

/-- C5 as amended: when a user leaves a guild the code's order is —
store commit first, then `remove_member` in the registry, then dispatch
`MemberRemove` (guild-scoped to `g`, so the departing user, whose
cached membership was already removed, does NOT receive it), then
`send_to(departing_user, GuildRemove)`. Consequently the departing
user's queue receives exactly the `GuildRemove` event, while every
other connected member of `g` receives the `MemberRemove` event. -/
theorem C5_amended_leave_guild_order (gw : Gateway) (user guild : Snowflake)
    (h : ConnectionHandle) (ev gev : GatewayEvent)
    (hall : ∀ p ∈ gw.peers, p.2.sender_open = true)
    (hl : lookupPeer gw.peers user = some h)
    (hscope : ev.extract_guild_id = some guild) :
    lookupPeer (leave_guild gw user guild ev gev).peers user =
      some { h with
        guild_ids := h.guild_ids.filter (fun g => g ≠ guild),
        outbox := h.outbox ++ [GatewayResponse.event gev] }
    ∧ (∀ w hw, w ≠ user → lookupPeer gw.peers w = some hw →
        guild ∈ hw.guild_ids →
        lookupPeer (leave_guild gw user guild ev gev).peers w =
          some { hw with
            outbox := hw.outbox ++ [GatewayResponse.event ev] }) := by
  have hopen : h.sender_open = true := hall _ (mem_of_lookupPeer hl)
  -- step 1: registry remove_member
  have hall1 : ∀ p ∈ (gw.remove_member user guild).peers,
      p.2.sender_open = true := by
    intro p hp
    simp only [Gateway.remove_member, updatePeer, List.mem_map] at hp
    obtain ⟨q, hq, hmap⟩ := hp
    rw [← hmap]
    by_cases hqu : q.1 = user <;> simp [hqu, hall q hq]
  have hl1 : lookupPeer (gw.remove_member user guild).peers user =
      some { h with guild_ids := h.guild_ids.filter (fun g => g ≠ guild) } := by
    simp [Gateway.remove_member, lookupPeer_updatePeer, hl]
  have hdisp := dispatch_all_open (gw.remove_member user guild) ev hall1
  -- step 2: dispatch skips the departing user (their cached membership
  -- of `guild` is already gone) and reaches the remaining members
  have hlu2 : lookupPeer
      ((gw.remove_member user guild).dispatch ev).peers user =
      some { h with guild_ids := h.guild_ids.filter (fun g => g ≠ guild) } := by
    rw [hdisp]
    rw [lookupPeer_map _
      (fun uid hh =>
        if (gw.remove_member user guild).routeTo ev uid hh then
          { hh with outbox := hh.outbox ++ [GatewayResponse.event ev] }
        else hh)]
    rw [hl1]
    simp [Gateway.routeTo, hscope, List.mem_filter]
  constructor
  · -- the departing user: only the GuildRemove arrives via send_to
    simp [leave_guild, Gateway.send_to, hlu2, ConnectionHandle.send, hopen,
      lookupPeer_setPeer]
  · -- other connected members of the guild receive MemberRemove
    intro w hw hwne hwl hwg
    have hwopen : hw.sender_open = true := hall _ (mem_of_lookupPeer hwl)
    have hw1 : lookupPeer (gw.remove_member user guild).peers w = some hw := by
      simp [Gateway.remove_member, lookupPeer_updatePeer, hwl, hwne]
    have hl2 : lookupPeer
        ((gw.remove_member user guild).dispatch ev).peers w =
        some { hw with outbox := hw.outbox ++ [GatewayResponse.event ev] } := by
      rw [hdisp]
      rw [lookupPeer_map _
        (fun uid hh =>
          if (gw.remove_member user guild).routeTo ev uid hh then
            { hh with outbox := hh.outbox ++ [GatewayResponse.event ev] }
          else hh)]
      rw [hw1]
      simp [Gateway.routeTo, hscope, hwg]
    -- step 3: send_to targets only the departing user
    simp [leave_guild, Gateway.send_to, hlu2, ConnectionHandle.send, hopen,
      lookupPeer_setPeer, hl2, hwne]

/-- Registry for the C5 amended witness: departing user 1 and peer 2,
both in guild 7 (peer 2 also in guild 9). -/
def c5wGw : Gateway :=
  ⟨[(⟨1⟩, ⟨true, [], [⟨7⟩]⟩), (⟨2⟩, ⟨true, [], [⟨7⟩, ⟨9⟩]⟩)]⟩

/-- Witness for the amended C5: user 1 leaves guild 7; user 1's queue
receives only `GuildRemove`, while user 2's queue receives
`MemberRemove`. -/
theorem C5_witness :
    lookupPeer (leave_guild c5wGw ⟨1⟩ ⟨7⟩ c5Ev c5Gev).peers ⟨1⟩ =
      some ⟨true, [GatewayResponse.event c5Gev], []⟩
    ∧ lookupPeer (leave_guild c5wGw ⟨1⟩ ⟨7⟩ c5Ev c5Gev).peers ⟨2⟩ =
      some ⟨true, [GatewayResponse.event c5Ev], [⟨7⟩, ⟨9⟩]⟩ := by
  have main := C5_amended_leave_guild_order c5wGw ⟨1⟩ ⟨7⟩ ⟨true, [], [⟨7⟩]⟩
    c5Ev c5Gev (by decide) rfl rfl
  exact ⟨main.1, main.2 ⟨2⟩ ⟨true, [], [⟨7⟩, ⟨9⟩]⟩ (by decide) rfl (by decide)⟩

/-! ## Handshake and connection setup (`handle_handshake`,
`handle_connection`)

The websocket and the external stores are oracles recorded in a
`HandshakeWorld`: the result of the first `ws_stream.next()`, the
serde parse of an inbound text frame, `Token::validate`, `User::fetch`,
the `members` table query for the user's guild IDs, and the store
queries performed by the `send_ready` seeder. -/

/-- Client→server message algebra (`GatewayMessage` in
`models/gateway_event.rs`). The `heartbeat` variant is modelled from
the spec: the handler matches on `GatewayMessage::Heartbeat`, which the
snapshot of the enum predates. -/
inductive GatewayMessage where
  | identify (token : String)
  | heartbeat
deriving DecidableEq, Repr

/-- Inbound websocket frame kinds (axum `ws::Message`). -/
inductive Frame where
  | text (s : String)
  | binary
  | ping
  | pong
  | closeFrame
deriving DecidableEq, Repr

/-- The oracles a handshake run consumes. `firstRead` is the result of
`ws_stream.next().await`: `none` for end of stream, `some (.error ())`
for a read error, `some (.ok f)` for a received frame. -/
structure HandshakeWorld where
  helloSendOk : Bool
  firstRead : Option (Except Unit Frame)
  parse : String → Option GatewayMessage
  validate : String → Option Snowflake
  fetchUser : Snowflake → Option User
  guildLoad : Except Unit (List Snowflake)
  seedLoad : Except Unit Unit

/-- Embedding of `handle_handshake`: send HELLO (the send result is
discarded by `.ok()`, so `helloSendOk` is never consulted), await the
first inbound frame, and walk the IDENTIFY/validate/fetch ladder.
Returns the resolved user on success together with the list of close
frames sent on the socket (each failure arm sends exactly one and
returns). -/
def handle_handshake (w : HandshakeWorld) :
    Option User × List (GatewayCloseCode × String) :=
  match w.firstRead with
  | none => (none, [(GatewayCloseCode.policyViolation, "IDENTIFY expected")])
  | some (Except.error _) =>
    (none, [(GatewayCloseCode.policyViolation, "IDENTIFY expected")])
  | some (Except.ok (Frame.text t)) =>
    match w.parse t with
    | some (GatewayMessage.identify tok) =>
      match w.validate tok with
      | none => (none, [(GatewayCloseCode.policyViolation, "Invalid token")])
      | some uid =>
        match w.fetchUser uid with
        | none =>
          (none, [(GatewayCloseCode.policyViolation, "User not found")])
        | some u => (some u, [])
    | _ => (none, [(GatewayCloseCode.invalidPayload, "Invalid IDENTITY payload")])
  | some (Except.ok _) =>
    (none, [(GatewayCloseCode.invalidPayload, "Invalid IDENTITY payload")])

/-- Outcome of `handle_connection` up to the spawning of the pipeline:
the handshake failed and the socket was closed without registration;
the `members` query panicked (`expect`) before registration; or the
user was registered (with the flag recording whether the spawned
`send_ready` seeder panicked on its own store queries — a panic that
aborts only the seeder task). -/
inductive ConnOutcome where
  | closedNoRegister
  | panicked
  | registered (uid : Snowflake) (seederPanicked : Bool)
deriving DecidableEq, Repr

/-- Embedding of `handle_connection` up to the pipeline spawn: run the
handshake; on failure close the socket (no registration); then load the
user's guild IDs from the store — a query failure is an `expect` panic,
sending nothing; on success install the handle in the registry and
start the seeder, whose own store failures panic only the seeder task. -/
def connection_setup (gw : Gateway) (w : HandshakeWorld) :
    Gateway × ConnOutcome × List (GatewayCloseCode × String) :=
  match handle_handshake w with
  | (none, frames) => (gw, ConnOutcome.closedNoRegister, frames)
  | (some u, frames) =>
    match w.guildLoad with
    | Except.error _ => (gw, ConnOutcome.panicked, frames)
    | Except.ok gids =>
      let gw2 := gw.add_handle u.id ⟨true, [], gids⟩
      match w.seedLoad with
      | Except.error _ => (gw2, ConnOutcome.registered u.id true, frames)
      | Except.ok _ => (gw2, ConnOutcome.registered u.id false, frames)

theorem handle_handshake_ok {w : HandshakeWorld} {u : User}
    (hok : (handle_handshake w).1 = some u) :
    handle_handshake w = (some u, []) := by
  unfold handle_handshake at hok ⊢
  rcases hfr : w.firstRead with _ | fr
  · simp [hfr] at hok
  · rcases fr with er | f
    · simp [hfr] at hok
    · rcases f with t | _ | _ | _ | _
      · rcases hp : w.parse t with _ | msg
        · simp [hfr, hp] at hok
        · rcases msg with tok | _
          · rcases hv : w.validate tok with _ | uid
            · simp [hfr, hp, hv] at hok
            · rcases hu : w.fetchUser uid with _ | usr
              · simp [hfr, hp, hv, hu] at hok
              · simp [hfr, hp, hv, hu] at hok ⊢
                exact hok
          · simp [hfr, hp] at hok
      · simp [hfr] at hok
      · simp [hfr] at hok
      · simp [hfr] at hok
      · simp [hfr] at hok

/-- C4: a handshake run ends in at most one of two outcomes —
registration, or a single close frame whose code lies in
{1003, 1007, 1008, 1011}; a missing or unreadable first frame closes
with 1008 "IDENTIFY expected", a failed token validation closes with
1008 "Invalid token", and on every non-registration outcome the
registry is unchanged (no entry is created). -/
theorem C4_handshake_outcomes (gw : Gateway) (w : HandshakeWorld) :
    (connection_setup gw w).2.2.length ≤ 1
    ∧ (∀ f ∈ (connection_setup gw w).2.2,
        f.1.toNat ∈ ([1003, 1007, 1008, 1011] : List Nat))
    ∧ (∀ uid b, (connection_setup gw w).2.1 = ConnOutcome.registered uid b →
        (connection_setup gw w).2.2 = [])
    ∧ ((∀ uid b, (connection_setup gw w).2.1 ≠ ConnOutcome.registered uid b) →
        (connection_setup gw w).1 = gw)
    ∧ ((w.firstRead = none ∨ w.firstRead = some (Except.error ())) →
        (connection_setup gw w).2.2 =
          [(GatewayCloseCode.policyViolation, "IDENTIFY expected")]
        ∧ (connection_setup gw w).1 = gw)
    ∧ (∀ t, w.firstRead = some (Except.ok (Frame.text t)) →
        ∀ tok, w.parse t = some (GatewayMessage.identify tok) →
        w.validate tok = none →
        (connection_setup gw w).2.2 =
          [(GatewayCloseCode.policyViolation, "Invalid token")]
        ∧ (connection_setup gw w).1 = gw) := by
  rcases hfr : w.firstRead with _ | fr
  · simp [connection_setup, handle_handshake, hfr, GatewayCloseCode.toNat]
  · rcases fr with er | f
    · cases er
      simp [connection_setup, handle_handshake, hfr, GatewayCloseCode.toNat]
    · rcases f with t | _ | _ | _ | _
      · rcases hp : w.parse t with _ | msg
        · simp [connection_setup, handle_handshake, hfr, hp,
            GatewayCloseCode.toNat]
        · rcases msg with tok | _
          · rcases hv : w.validate tok with _ | uid
            · simp [connection_setup, handle_handshake, hfr, hp, hv,
                GatewayCloseCode.toNat]
            · rcases hu : w.fetchUser uid with _ | usr
              · simp [connection_setup, handle_handshake, hfr, hp, hv, hu,
                  GatewayCloseCode.toNat]
              · rcases hg : w.guildLoad with eg | gids
                · simp [connection_setup, handle_handshake, hfr, hp, hv, hu,
                    hg, GatewayCloseCode.toNat]
                · rcases hs : w.seedLoad with es | s <;>
                    simp [connection_setup, handle_handshake, hfr, hp, hv,
                      hu, hg, hs, GatewayCloseCode.toNat]
          · simp [connection_setup, handle_handshake, hfr, hp,
              GatewayCloseCode.toNat]
      · simp [connection_setup, handle_handshake, hfr, GatewayCloseCode.toNat]
      · simp [connection_setup, handle_handshake, hfr, GatewayCloseCode.toNat]
      · simp [connection_setup, handle_handshake, hfr, GatewayCloseCode.toNat]
      · simp [connection_setup, handle_handshake, hfr, GatewayCloseCode.toNat]

/-- Oracle world for the C4 witness: the first frame is a readable
IDENTIFY whose token fails validation. -/
def c4World : HandshakeWorld :=
  { helloSendOk := true
    firstRead := some (Except.ok (Frame.text "identify-frame"))
    parse := fun t =>
      if t = "identify-frame" then some (GatewayMessage.identify "deadbeef")
      else none
    validate := fun _ => none
    fetchUser := fun _ => none
    guildLoad := Except.ok []
    seedLoad := Except.ok () }

/-- Witness for C4: with the bad token "deadbeef" the run closes with
1008 "Invalid token" and leaves the registry unchanged. -/
theorem C4_witness :
    (connection_setup ⟨[]⟩ c4World).2.2 =
      [(GatewayCloseCode.policyViolation, "Invalid token")]
    ∧ (connection_setup ⟨[]⟩ c4World).1 = ⟨[]⟩ :=
  (C4_handshake_outcomes ⟨[]⟩ c4World).2.2.2.2.2 "identify-frame" rfl
    "deadbeef" rfl rfl

/-! ## C7: external-store failure during handshake seeding -/

/-- Oracle world for the C7 counterexample: a valid handshake for user
42, but the `members` query (guild-ID load) fails. -/
def c7World : HandshakeWorld :=
  { helloSendOk := true
    firstRead := some (Except.ok (Frame.text "identify-frame"))
    parse := fun t =>
      if t = "identify-frame" then some (GatewayMessage.identify "good-token")
      else none
    validate := fun tok => if tok = "good-token" then some ⟨42⟩ else none
    fetchUser := fun uid => if uid = ⟨42⟩ then some ⟨⟨42⟩⟩ else none
    guildLoad := Except.error ()
    seedLoad := Except.ok () }

/-- C7 counterexample: when the store query for the user's guild IDs
fails after a successful handshake, the task panics (`expect`): the run
sends no close frame at all — in particular none with code 1011 — and
the session is not registered. The claim's "closed with code 1011" is
what fails; "not registered" holds. -/
theorem C7_counterexample :
    connection_setup ⟨[]⟩ c7World = (⟨[]⟩, ConnOutcome.panicked, []) := by
  decide

/-- C7 as amended: a failure of the guild-ID store query during
connection setup panics the connection task — no close frame is sent
(in particular not 1011) and the session is not registered; a failure
of the seeder's store queries after registration panics only the
seeder task — again without any close frame — and the session remains
registered. -/
theorem C7_amended_store_failure_panics (gw : Gateway) (w : HandshakeWorld)
    (u : User) (hok : (handle_handshake w).1 = some u) :
    (w.guildLoad = Except.error () →
      connection_setup gw w = (gw, ConnOutcome.panicked, []))
    ∧ (∀ gids, w.guildLoad = Except.ok gids → w.seedLoad = Except.error () →
        connection_setup gw w =
          (gw.add_handle u.id ⟨true, [], gids⟩,
            ConnOutcome.registered u.id true, [])) := by
  have hh := handle_handshake_ok hok
  constructor
  · intro hg
    simp [connection_setup, hh, hg]
  · intro gids hg hs
    simp [connection_setup, hh, hg, hs]

/-- Witness for the amended C7 at `c7World`. -/
theorem C7_witness :
    connection_setup ⟨[]⟩ c7World = (⟨[]⟩, ConnOutcome.panicked, []) :=
  (C7_amended_store_failure_panics ⟨[]⟩ c7World ⟨⟨42⟩⟩ rfl).1 rfl

/-! ## C8: failure of the initial HELLO send -/

/-- Oracle world for the C8 counterexample: the HELLO write fails, yet
the client then identifies successfully. -/
def c8World : HandshakeWorld :=
  { helloSendOk := false
    firstRead := some (Except.ok (Frame.text "identify-frame"))
    parse := fun t =>
      if t = "identify-frame" then some (GatewayMessage.identify "good-token")
      else none
    validate := fun tok => if tok = "good-token" then some ⟨42⟩ else none
    fetchUser := fun uid => if uid = ⟨42⟩ then some ⟨⟨42⟩⟩ else none
    guildLoad := Except.ok [⟨7⟩]
    seedLoad := Except.ok () }

/-- C8 counterexample: the HELLO send result is discarded (`.ok()`), so
a failed HELLO write does not close the connection with ServerError —
the handshake proceeds to await the first inbound frame and here even
completes with a successful registration and no close frame at all. -/
theorem C8_counterexample :
    c8World.helloSendOk = false
    ∧ connection_setup ⟨[]⟩ c8World =
        (⟨[(⟨42⟩, ⟨true, [], [⟨7⟩]⟩)]⟩,
          ConnOutcome.registered ⟨42⟩ false, []) := by
  decide

/-- C8 as amended: the handshake discards the result of the HELLO send
and proceeds to await the first inbound frame regardless — its outcome
is independent of `helloSendOk` — and no arm of the handshake ever
sends a close frame with code ServerError (1011). -/
theorem C8_amended_hello_send_ignored (w : HandshakeWorld) (b : Bool) :
    handle_handshake { w with helloSendOk := b } = handle_handshake w
    ∧ (∀ f ∈ (handle_handshake w).2,
        f.1 ≠ GatewayCloseCode.serverError) := by
  refine ⟨rfl, ?_⟩
  rcases hfr : w.firstRead with _ | fr
  · simp [handle_handshake, hfr]
  · rcases fr with er | f
    · simp [handle_handshake, hfr]
    · rcases f with t | _ | _ | _ | _
      · rcases hp : w.parse t with _ | msg
        · simp [handle_handshake, hfr, hp]
        · rcases msg with tok | _
          · rcases hv : w.validate tok with _ | uid
            · simp [handle_handshake, hfr, hp, hv]
            · rcases hu : w.fetchUser uid with _ | usr <;>
                simp [handle_handshake, hfr, hp, hv, hu]
          · simp [handle_handshake, hfr, hp]
      · simp [handle_handshake, hfr]
      · simp [handle_handshake, hfr]
      · simp [handle_handshake, hfr]
      · simp [handle_handshake, hfr]

/-- Witness for the amended C8: flipping `helloSendOk` does not change
the outcome of `c8World`'s handshake. -/
theorem C8_witness :
    handle_handshake { c8World with helloSendOk := true } =
      handle_handshake c8World :=
  (C8_amended_hello_send_ignored c8World true).1

/-! ## C10: the DeletePayload guild_id routing field stays off the wire -/

/-- C10: for the delete events the serialised `data` object holds only
the `id` field (the `guild_id` field carries `#[serde(skip)]`), while
`extract_guild_id` of the event still returns the stored `guild_id` for
routing. -/
theorem C10_delete_payload_guild_id_off_wire (p : DeletePayload) :
    DeletePayload.toJson p = Json.obj [("id", Json.str (i64Render p.id.value))]
    ∧ (GatewayEvent.memberRemove p).extract_guild_id = p.guild_id
    ∧ (GatewayEvent.guildRemove p).extract_guild_id = p.guild_id
    ∧ (GatewayEvent.channelRemove p).extract_guild_id = p.guild_id :=
  ⟨rfl, rfl, rfl, rfl⟩

/-- Witness for C10 at the payload (id 3, guild_id 7). -/
theorem C10_witness :
    DeletePayload.toJson ⟨⟨3⟩, some ⟨7⟩⟩ =
      Json.obj [("id", Json.str (i64Render 3))]
    ∧ (GatewayEvent.memberRemove ⟨⟨3⟩, some ⟨7⟩⟩).extract_guild_id =
        some ⟨7⟩ :=
  ⟨(C10_delete_payload_guild_id_off_wire ⟨⟨3⟩, some ⟨7⟩⟩).1,
    (C10_delete_payload_guild_id_off_wire ⟨⟨3⟩, some ⟨7⟩⟩).2.1⟩

end Chat
